import Mathlib

/-
Verification of the surfa-ingest client library (Python) against its
specification, via a shallow embedding in Lean 4.

The embedding covers:
  - the JSON-like value and dictionary model used by events
    (src/surfa_ingest/events.py);
  - the event factory create_event and validate_event;
  - the client session state and the flush protocol of
    src/surfa_ingest/client.py (runtime-info injection, retry/backoff,
    error classification, execution-id capture, buffer clearing), with the
    HTTP transport abstracted as a function from attempt index to outcome.

Python dictionaries are modelled as association lists with Python insertion
semantics (replace-in-place on an existing key, append otherwise); Python
truthiness of optional strings/dicts is modelled explicitly where the source
relies on it.
-/

deriving instance DecidableEq for Except

namespace SurfaIngest

/-- A JSON-like value appearing in events and response bodies: a string, an
integer, a boolean, or null (Python None). -/
inductive Value where
  | str (s : String)
  | int (n : Int)
  | bool (b : Bool)
  | vnone
deriving DecidableEq

/-- A Python dictionary with string keys, modelled as an association list in
insertion order. -/
abbrev EDict := List (String × Value)

/-- Lookup of a key in a dictionary (first occurrence). -/
def dget : EDict → String → Option Value
  | [], _ => none
  | (k', v) :: rest, k => if k' = k then some v else dget rest k

/-- Python dictionary assignment d[k] = v: replace the value in place when the
key is present, append the pair otherwise. -/
def dinsert : EDict → String → Value → EDict
  | [], k, v => [(k, v)]
  | (k', v') :: rest, k, v =>
      if k' = k then (k, v) :: rest else (k', v') :: dinsert rest k v

/-- Python dict.update: assign every pair of the second dictionary into the
first, in order. -/
def dupdate (d : EDict) : EDict → EDict
  | [] => d
  | (k, v) :: rest => dupdate (dinsert d k v) rest

/-- Python membership test: k in d. -/
def dcontains (d : EDict) (k : String) : Bool :=
  (dget d k).isSome

theorem dget_dinsert_ne (d : EDict) (k k' : String) (v : Value) (h : k' ≠ k) :
    dget (dinsert d k' v) k = dget d k := by
  induction d with
  | nil => simp [dinsert, dget, h]
  | cons p rest ih =>
      obtain ⟨pk, pv⟩ := p
      by_cases hp : pk = k'
      · subst hp
        simp [dinsert, dget, h]
      · simp only [dinsert, if_neg hp]
        by_cases hk : pk = k
        · simp [dget, hk]
        · simp [dget, hk, ih]

theorem dget_dupdate_of_not_mem (d e : EDict) (k : String)
    (h : dget e k = none) : dget (dupdate d e) k = dget d k := by
  induction e generalizing d with
  | nil => simp [dupdate]
  | cons p rest ih =>
      obtain ⟨pk, pv⟩ := p
      simp only [dget] at h
      by_cases hp : pk = k
      · simp [hp] at h
      · simp only [if_neg hp] at h
        simp only [dupdate]
        rw [ih _ h, dget_dinsert_ne _ _ _ _ hp]

theorem dinsert_ne_nil (d : EDict) (k : String) (v : Value) :
    dinsert d k v ≠ [] := by
  cases d with
  | nil => simp [dinsert]
  | cons p rest =>
      obtain ⟨pk, pv⟩ := p
      by_cases hp : pk = k <;> simp [dinsert, hp]

theorem dupdate_ne_nil (d e : EDict) (h : d ≠ []) : dupdate d e ≠ [] := by
  induction e generalizing d with
  | nil => simpa [dupdate] using h
  | cons p rest ih =>
      obtain ⟨pk, pv⟩ := p
      simp only [dupdate]
      exact ih _ (dinsert_ne_nil d pk pv)

/-! ## Event factory and validation (src/surfa_ingest/events.py) -/

/-- Validation failure reasons of validate_event (the ValueError messages of
the source, as a sum type). -/
inductive ValErr where
  | missingKind
  | kindNotString
  | kindEmpty
  | tsNotString
deriving DecidableEq

/-- Embedding of events.validate_event: requires a kind field holding a
non-empty string, and, when a ts field is present, that it is a string.
The function is pure: it never modifies the event. (The isinstance-dict check
of the source is unrepresentable here: every EDict is a dictionary.) -/
def validate_event (event : EDict) : Except ValErr Bool :=
  match dget event "kind" with
  | none => .error .missingKind
  | some (.str s) =>
      if s = "" then .error .kindEmpty
      else
        match dget event "ts" with
        | some (.str _) => .ok true
        | some _ => .error .tsNotString
        | none => .ok true
  | some _ => .error .kindNotString

/-- Embedding of events.create_event. The current wall-clock time returned by
now_iso() is passed in as the parameter now. The ts argument falls back to
now when absent or empty (Python: ts or now_iso()). Optional standard fields
are assigned in source order; finally the payload mapping and the keyword
arguments are merged (kwargs over payload) and the merge is written into the
event last, flattened. -/
def create_event (kind : String)
    (subtype tool_name status direction method correlation_id span_parent_id :
      Option String)
    (latency_ms : Option Int) (ts : Option String)
    (payload : Option EDict) (kwargs : EDict) (now : String) : EDict :=
  let tsv : String := match ts with
    | some t => if t = "" then now else t
    | none => now
  let event : EDict := [("ts", Value.str tsv), ("kind", Value.str kind)]
  let event := match subtype with
    | some v => dinsert event "subtype" (Value.str v)
    | none => event
  let event := match tool_name with
    | some v => dinsert event "tool_name" (Value.str v)
    | none => event
  let event := match status with
    | some v => dinsert event "status" (Value.str v)
    | none => event
  let event := match direction with
    | some v => dinsert event "direction" (Value.str v)
    | none => event
  let event := match method with
    | some v => dinsert event "method" (Value.str v)
    | none => event
  let event := match correlation_id with
    | some v => dinsert event "correlation_id" (Value.str v)
    | none => event
  let event := match span_parent_id with
    | some v => dinsert event "span_parent_id" (Value.str v)
    | none => event
  let event := match latency_ms with
    | some n => dinsert event "latency_ms" (Value.int n)
    | none => event
  let payloadTruthy : Bool := match payload with
    | some p => !p.isEmpty
    | none => false
  if payloadTruthy || !kwargs.isEmpty then
    dupdate event (dupdate (dupdate [] (payload.getD [])) kwargs)
  else event

/-- Claim C9: an event built by the factory with only kind set consists of
exactly the default ts field and the kind field, and for every non-empty kind
it passes validate_event; validation is a pure function of the event and
modifies nothing. -/
theorem claim_C9_factory_roundtrip (kind now : String) (h : kind ≠ "") :
    create_event kind none none none none none none none none none none []
        now = [("ts", Value.str now), ("kind", Value.str kind)] ∧
    validate_event (create_event kind none none none none none none none none
        none none [] now) = .ok true := by
  constructor
  · rfl
  · show validate_event [("ts", Value.str now), ("kind", Value.str kind)]
      = .ok true
    simp [validate_event, dget, h]

theorem claim_C9_factory_roundtrip_witness :
    ("tool" : String) ≠ "" ∧
    (create_event "tool" none none none none none none none none none none []
        "2026-01-29T20:00:00Z" =
      [("ts", Value.str "2026-01-29T20:00:00Z"),
       ("kind", Value.str "tool")] ∧
    validate_event (create_event "tool" none none none none none none none
        none none none [] "2026-01-29T20:00:00Z") = .ok true) :=
  ⟨by decide,
   claim_C9_factory_roundtrip "tool" "2026-01-29T20:00:00Z" (by decide)⟩

/-- Claim C10 (implicit): in create_event the payload mapping and keyword
arguments are merged into the event last, so caller-supplied bindings
override the fixed default fields kind, ts, subtype and status (kwargs in
turn override payload); consequently a payload binding kind to a non-string
or to the empty string makes the factory return an event that validate_event
rejects. -/
theorem claim_C10_payload_overrides_defaults :
    (∀ kind now v, dget (create_event kind none none none none none none none
        none none (some [("kind", v)]) [] now) "kind" = some v) ∧
    (∀ kind now v, dget (create_event kind none none none none none none none
        none none (some [("ts", v)]) [] now) "ts" = some v) ∧
    (∀ kind s now v, dget (create_event kind (some s) none none none none none
        none none none (some [("subtype", v)]) [] now) "subtype" = some v) ∧
    (∀ kind s now v, dget (create_event kind none none (some s) none none none
        none none none (some [("status", v)]) [] now) "status" = some v) ∧
    (∀ kind now v w, dget (create_event kind none none none none none none
        none none none (some [("kind", v)]) [("kind", w)] now) "kind"
        = some w) ∧
    validate_event (create_event "tool" none none none none none none none
        none none (some [("kind", Value.int 0)]) [] "T")
      = .error ValErr.kindNotString ∧
    validate_event (create_event "tool" none none none none none none none
        none none (some [("kind", Value.str "")]) [] "T")
      = .error ValErr.kindEmpty := by
  refine ⟨?_, ?_, ?_, ?_, ?_, ?_, ?_⟩
  · intro kind now v; rfl
  · intro kind now v; rfl
  · intro kind s now v; rfl
  · intro kind s now v; rfl
  · intro kind now v w; rfl
  · rfl
  · rfl

/-! ## Client session state and flush protocol (src/surfa_ingest/client.py) -/

/-- The mutable session state of SurfaClient relevant to tracking and flush:
the event buffer, the server-assigned execution identifier (a Python
attribute that is None or an arbitrary response value), the runtime snapshot,
the runtime-info-emitted flag, the session-ended flag, the session id, and
the auto-flush threshold flush_at. -/
structure ClientState where
  session_id : String
  flush_at : Nat
  execution_id : Option Value
  buffer : List EDict
  runtime : Option EDict
  runtime_info_emitted : Bool
  session_ended : Bool
deriving DecidableEq

/-- Outcome of one HTTP transport attempt: an HTTP response with status code,
parsed JSON body (none when the body is not valid JSON) and raw text; a
timeout/connection failure (requests.Timeout / requests.ConnectionError); or
another transport-layer failure (requests.RequestException). -/
inductive TransportResult where
  | http (status : Nat) (jsonBody : Option EDict) (text : String)
  | timeout (msg : String)
  | requestError (msg : String)
deriving DecidableEq

/-- The errors flush can raise: SurfaAuthError (message), SurfaIngestError
(message, status code, truncated response text) and SurfaNetworkError
(message). -/
inductive FlushError where
  | authError (msg : String)
  | ingestError (msg : String) (status : Nat) (text : String)
  | networkError (msg : String)
deriving DecidableEq

/-- Python slicing s[:n] on a string, by code point. -/
def pytake (s : String) (n : Nat) : String :=
  String.mk (s.data.take n)

theorem pytake_length_le (s : String) (n : Nat) : (pytake s n).length ≤ n :=
  List.length_take_le n s.data

/-- Rendering of a response value inside a Python f-string. -/
def valueText : Value → String
  | .str s => s
  | .int n => toString n
  | .bool b => if b then "True" else "False"
  | .vnone => "None"

/-- Message of the SurfaAuthError raised on a 401/403: the status, followed by
the structured error field of the response body when the body parses and has
one (the field is interpolated verbatim, not truncated). -/
def authMsg (status : Nat) (body : Option EDict) : String :=
  let m := "Authentication failed: " ++ toString status
  match body with
  | some d =>
      match dget d "error" with
      | some v => m ++ " - " ++ valueText v
      | none => m
  | none => m

/-- Message of the SurfaIngestError raised on a non-retryable 4xx: the status,
followed by the structured error field when present (interpolated verbatim,
not truncated). -/
def clientMsg (status : Nat) (body : Option EDict) : String :=
  let m := "Client error: " ++ toString status
  match body with
  | some d =>
      match dget d "error" with
      | some v => m ++ " - " ++ valueText v
      | none => m
  | none => m

/-- The retryable status codes of flush. -/
def retrySet : List Nat := [429, 500, 502, 503, 504]

/-- Classification of one transport attempt inside the retry loop of flush:
success with the parsed body (empty dictionary when unparseable), a fatal
error raised immediately, or a retryable error. The branches mirror the
source order: 2xx, then 401/403, then non-retryable 4xx, then the retryable
set, then the fall-through immediate server error; timeouts and connection
failures are retryable network errors, any other request exception is
fatal. -/
inductive AttemptOut where
  | success (data : EDict)
  | fatal (e : FlushError)
  | retryable (e : FlushError)
deriving DecidableEq

def classify : TransportResult → AttemptOut
  | .http status body text =>
      if 200 ≤ status ∧ status < 300 then
        .success (body.getD [])
      else if status = 401 ∨ status = 403 then
        .fatal (.authError (authMsg status body))
      else if 400 ≤ status ∧ status < 500 ∧ status ∉ retrySet then
        .fatal (.ingestError (clientMsg status body) status (pytake text 500))
      else if status ∈ retrySet then
        .retryable (.ingestError ("Server error: " ++ toString status) status
          (pytake text 500))
      else
        .fatal (.ingestError ("Server error: " ++ toString status) status
          (pytake text 500))
  | .timeout msg => .retryable (.networkError ("Network error: " ++ msg))
  | .requestError msg => .fatal (.networkError ("Request failed: " ++ msg))

/-- Result of the bounded retry loop: final outcome, number of transport
attempts made, and the list of backoff delays slept, in milliseconds (the
source sleeps base_delay * 2 ^ attempt seconds with base_delay = 0.5; the
delays are represented exactly in integral milliseconds). -/
structure AttemptsRes where
  outcome : Except FlushError EDict
  attempts : Nat
  delays : List Nat
deriving DecidableEq

/-- The base backoff delay of flush: 0.5 seconds, in milliseconds. -/
def baseDelayMs : Nat := 500

/-- The retry loop of flush: for attempt in range(max_retries), classify the
transport outcome; a success or fatal error ends the loop at once; a
retryable error sleeps baseDelay * 2 ^ attempt and continues unless this was
the final attempt, in which case the last retryable error is raised. The
fuel argument is the number of attempts remaining (max_retries - attempt);
the exhausted case re-raises the last error and is unreachable from fuel
max_retries > 0. -/
def flushAttempts (tr : Nat → TransportResult) :
    Nat → Nat → List Nat → Option FlushError → AttemptsRes
  | attempt, 0, acc, lastErr =>
      ⟨.error ((lastErr).getD
          (.networkError "Failed to flush events after retries")),
        attempt, acc.reverse⟩
  | attempt, fuel + 1, acc, _lastErr =>
      match classify (tr attempt) with
      | .success d => ⟨.ok d, attempt + 1, acc.reverse⟩
      | .fatal e => ⟨.error e, attempt + 1, acc.reverse⟩
      | .retryable e =>
          if fuel = 0 then ⟨.error e, attempt + 1, acc.reverse⟩
          else
            flushAttempts tr (attempt + 1) fuel
              ((baseDelayMs * 2 ^ attempt) :: acc) (some e)

/-- The request body built by flush: session id, the outgoing events, the
stored execution id when already known, and the runtime snapshot when set. -/
structure RequestPayload where
  session_id : String
  events : List EDict
  execution_id : Option Value
  runtime : Option EDict
deriving DecidableEq

/-- Result of one flush call: the returned value or raised error, the client
state afterwards, the number of transport attempts, the backoff delays
slept, and the request payload (none when the buffer was empty and no
request was made). -/
structure FlushRes where
  outcome : Except FlushError (Option EDict)
  state : ClientState
  attempts : Nat
  delays : List Nat
  payload : Option RequestPayload
deriving DecidableEq

/-- Conversion of a response value assigned to a Python attribute: JSON null
becomes Python None. -/
def pyOpt : Value → Option Value
  | .vnone => none
  | v => some v

/-- The synthetic runtime-info event injected by flush: the dictionary
literal with kind runtime and subtype runtime_info, with the runtime
snapshot spread into it (snapshot keys override on collision, as the Python
** spread does). -/
def mkRuntimeInfoEvent (rt : EDict) : EDict :=
  dupdate [("kind", Value.str "runtime"), ("subtype", Value.str "runtime_info")]
    rt

/-- Python truthiness of the optional runtime dictionary. -/
def rtTruthy : Option EDict → Bool
  | some d => !d.isEmpty
  | none => false

/-- Embedding of SurfaClient.flush, with the HTTP transport abstracted as a
function from attempt index to TransportResult. An empty buffer returns None
without a request. Otherwise the buffer is snapshotted, the runtime-info
event is prepended when a runtime is set and not yet emitted, the payload is
built, and the retry loop runs; on a 2xx the execution id is stored when not
already known (None for a null response value), the emitted flag is set when
a runtime is set and was unemitted, and the buffer is cleared; on an error
the state is returned unchanged. -/
def flush (st : ClientState) (tr : Nat → TransportResult) : FlushRes :=
  if st.buffer.isEmpty then
    ⟨.ok none, st, 0, [], none⟩
  else
    let inject : Bool := rtTruthy st.runtime && !st.runtime_info_emitted
    let events_to_send : List EDict :=
      if inject then mkRuntimeInfoEvent (st.runtime.getD []) :: st.buffer
      else st.buffer
    let payload : RequestPayload :=
      ⟨st.session_id, events_to_send, st.execution_id, st.runtime⟩
    let r := flushAttempts tr 0 3 [] none
    match r.outcome with
    | .ok data =>
        ⟨.ok (some data),
          { st with
              buffer := [],
              execution_id :=
                if dcontains data "execution_id" && st.execution_id.isNone
                then pyOpt ((dget data "execution_id").getD .vnone)
                else st.execution_id,
              runtime_info_emitted :=
                if inject then true else st.runtime_info_emitted },
          r.attempts, r.delays, some payload⟩
    | .error e => ⟨.error e, st, r.attempts, r.delays, some payload⟩

/-- Embedding of SurfaClient.flush under concurrent appends: arrivals is the
list of events other callers append to the live buffer while the network
I/O and retry sleeps of this flush are in progress. The outgoing batch is
the snapshot taken before the I/O window (buffer.copy()), so arrivals are
not part of it; on success the source executes buffer.clear(), which empties
the entire live buffer, arrivals included; on failure the live buffer is the
original contents followed by the arrivals. With arrivals = [] this is
exactly flush. -/
def flushConc (st : ClientState) (tr : Nat → TransportResult)
    (arrivals : List EDict) : FlushRes :=
  if st.buffer.isEmpty then
    ⟨.ok none, st, 0, [], none⟩
  else
    let inject : Bool := rtTruthy st.runtime && !st.runtime_info_emitted
    let events_to_send : List EDict :=
      if inject then mkRuntimeInfoEvent (st.runtime.getD []) :: st.buffer
      else st.buffer
    let payload : RequestPayload :=
      ⟨st.session_id, events_to_send, st.execution_id, st.runtime⟩
    let r := flushAttempts tr 0 3 [] none
    match r.outcome with
    | .ok data =>
        ⟨.ok (some data),
          { st with
              buffer := [],
              execution_id :=
                if dcontains data "execution_id" && st.execution_id.isNone
                then pyOpt ((dget data "execution_id").getD .vnone)
                else st.execution_id,
              runtime_info_emitted :=
                if inject then true else st.runtime_info_emitted },
          r.attempts, r.delays, some payload⟩
    | .error e =>
        ⟨.error e, { st with buffer := st.buffer ++ arrivals },
          r.attempts, r.delays, some payload⟩

/-- Result of one track_raw call: the validation outcome, the client state
afterwards, whether an auto-flush was invoked, and its result when it was. -/
structure TrackRes where
  valid : Except ValErr Unit
  state : ClientState
  flushed : Bool
  flushRes : Option FlushRes

/-- Embedding of SurfaClient.track_raw: validate the event (raising
SurfaValidationError without touching the buffer on failure), append it to
the buffer, and invoke flush synchronously when the buffer length has
reached the flush_at threshold. -/
def track_raw (st : ClientState) (ev : EDict)
    (tr : Nat → TransportResult) : TrackRes :=
  match validate_event ev with
  | .error e => ⟨.error e, st, false, none⟩
  | .ok _ =>
      let st1 := { st with buffer := st.buffer ++ [ev] }
      if st.flush_at ≤ st1.buffer.length then
        let r := flush st1 tr
        ⟨.ok (), r.state, true, some r⟩
      else
        ⟨.ok (), st1, false, none⟩

/-- The runtime dictionary built by SurfaClient.set_runtime: provider and
model, then mode when truthy (non-empty), then the extra dictionary when
truthy, then the keyword arguments. -/
def runtimeOf (provider model : String) (mode : Option String)
    (extra : Option EDict) (kwargs : EDict) : EDict :=
  let rt : EDict := [("provider", Value.str provider),
    ("model", Value.str model)]
  let rt := match mode with
    | some m => if m = "" then rt else dinsert rt "mode" (Value.str m)
    | none => rt
  let rt := match extra with
    | some e => if e.isEmpty then rt else dupdate rt e
    | none => rt
  if kwargs.isEmpty then rt else dupdate rt kwargs

/-- Embedding of SurfaClient.set_runtime: replace the runtime snapshot
wholesale and reset the runtime-info-emitted flag. -/
def set_runtime (st : ClientState) (provider model : String)
    (mode : Option String) (extra : Option EDict) (kwargs : EDict) :
    ClientState :=
  { st with
      runtime := some (runtimeOf provider model mode extra kwargs),
      runtime_info_emitted := false }

theorem runtimeOf_ne_nil (provider model : String) (mode : Option String)
    (extra : Option EDict) (kwargs : EDict) :
    runtimeOf provider model mode extra kwargs ≠ [] := by
  unfold runtimeOf
  have base : ∀ d : EDict, d ≠ [] →
      (if kwargs.isEmpty then d else dupdate d kwargs) ≠ [] := by
    intro d hd
    by_cases hk : kwargs.isEmpty
    · simpa [hk] using hd
    · simpa [hk] using dupdate_ne_nil d kwargs hd
  apply base
  cases mode with
  | none =>
      cases extra with
      | none => simp
      | some e =>
          by_cases he : e.isEmpty
          · simp [he]
          · simpa [he] using dupdate_ne_nil _ e (by simp)
  | some m =>
      by_cases hm : m = ""
      · cases extra with
        | none => simp [hm]
        | some e =>
            by_cases he : e.isEmpty
            · simp [hm, he]
            · simpa [hm, he] using dupdate_ne_nil _ e (by simp)
      · cases extra with
        | none => simpa [hm] using dinsert_ne_nil _ "mode" (Value.str m)
        | some e =>
            by_cases he : e.isEmpty
            · simpa [hm, he] using dinsert_ne_nil _ "mode" (Value.str m)
            · simpa [hm, he] using
                dupdate_ne_nil _ e (dinsert_ne_nil _ "mode" (Value.str m))

/-! ## Concrete fixtures used by witnesses and counterexamples -/

/-- A valid tracked event. -/
def sampleEvent : EDict :=
  [("ts", Value.str "2026-01-29T20:00:00Z"), ("kind", Value.str "tool")]

/-- Another valid tracked event. -/
def otherEvent : EDict :=
  [("ts", Value.str "2026-01-29T20:00:01Z"), ("kind", Value.str "custom")]

/-- A client state with one buffered event, no runtime, no execution id. -/
def cst : ClientState :=
  ⟨"sess-1", 25, none, [sampleEvent], none, false, false⟩

/-- A transport that always returns 200 with an execution id in the body. -/
def tr200 : Nat → TransportResult :=
  fun _ => .http 200 (some [("execution_id", Value.str "exec-1")]) "ok"

/-- A transport that always returns 401 with an unparseable body. -/
def tr401 : Nat → TransportResult := fun _ => .http 401 none ""

/-- A transport returning 503 twice, then 200. -/
def tr503 : Nat → TransportResult :=
  fun n => if n < 2 then .http 503 none "unavailable"
    else .http 200 (some []) ""

/-- A transport that always returns 501 (a 5xx outside the retryable set). -/
def tr501 : Nat → TransportResult :=
  fun _ => .http 501 none "not implemented"

/-- A transport that always returns 400 with a structured error field. -/
def tr400 : Nat → TransportResult :=
  fun _ => .http 400 (some [("error", Value.str "bad request")]) "req body"

/-- A 501-character error text. -/
def longText : String := String.mk (List.replicate 501 'a')

/-- A transport that always returns 401 with a long structured error field. -/
def trAuthLong : Nat → TransportResult :=
  fun _ => .http 401 (some [("error", Value.str longText)]) ""

/-! ## Classification and retry-loop lemmas -/

theorem classify_success (s : Nat) (body : Option EDict) (text : String)
    (h : 200 ≤ s ∧ s < 300) :
    classify (.http s body text) = .success (body.getD []) := by
  simp [classify, h]

theorem classify_auth (s : Nat) (body : Option EDict) (text : String)
    (h : s = 401 ∨ s = 403) :
    classify (.http s body text) = .fatal (.authError (authMsg s body)) := by
  have h2 : ¬(200 ≤ s ∧ s < 300) := by omega
  simp [classify, h2, h]

theorem classify_client (s : Nat) (body : Option EDict) (text : String)
    (h4 : 400 ≤ s) (h5 : s < 500) (hr : s ∉ retrySet)
    (ha : ¬(s = 401 ∨ s = 403)) :
    classify (.http s body text) =
      .fatal (.ingestError (clientMsg s body) s (pytake text 500)) := by
  have h2 : ¬(200 ≤ s ∧ s < 300) := by omega
  simp [classify, h2, ha, h4, h5, hr]

theorem classify_retryable (s : Nat) (body : Option EDict) (text : String)
    (hr : s ∈ retrySet) :
    classify (.http s body text) =
      .retryable (.ingestError ("Server error: " ++ toString s) s
        (pytake text 500)) := by
  have hs : s = 429 ∨ s = 500 ∨ s = 502 ∨ s = 503 ∨ s = 504 := by
    simpa [retrySet] using hr
  have h2 : ¬(200 ≤ s ∧ s < 300) := by omega
  have ha : ¬(s = 401 ∨ s = 403) := by omega
  have h4 : ¬(400 ≤ s ∧ s < 500 ∧ s ∉ retrySet) := by
    intro hcon; exact hcon.2.2 hr
  simp [classify, h2, ha, h4, hr]

theorem classify_other (s : Nat) (body : Option EDict) (text : String)
    (h2 : ¬(200 ≤ s ∧ s < 300)) (ha : ¬(s = 401 ∨ s = 403))
    (h4 : ¬(400 ≤ s ∧ s < 500)) (hr : s ∉ retrySet) :
    classify (.http s body text) =
      .fatal (.ingestError ("Server error: " ++ toString s) s
        (pytake text 500)) := by
  have h4' : ¬(400 ≤ s ∧ s < 500 ∧ s ∉ retrySet) := fun hcon => h4 ⟨hcon.1, hcon.2.1⟩
  unfold classify
  dsimp only
  rw [if_neg h2, if_neg ha, if_neg h4', if_neg hr]

theorem flushAttempts_run (tr : Nat → TransportResult) :
    (flushAttempts tr 0 3 [] none).attempts ≤ 3 ∧
    (flushAttempts tr 0 3 [] none).delays =
      (List.range ((flushAttempts tr 0 3 [] none).attempts - 1)).map
        (fun i => baseDelayMs * 2 ^ i) := by
  rcases h0 : classify (tr 0) with d0 | e0 | e0
  · constructor <;> simp [flushAttempts, h0]
  · constructor <;> simp [flushAttempts, h0]
  · rcases h1 : classify (tr 1) with d1 | e1 | e1
    · constructor <;> simp [flushAttempts, h0, h1, List.range_succ]
    · constructor <;> simp [flushAttempts, h0, h1, List.range_succ]
    · rcases h2 : classify (tr 2) with d2 | e2 | e2
      · constructor <;>
          simp [flushAttempts, h0, h1, h2, List.range_succ]
      · constructor <;>
          simp [flushAttempts, h0, h1, h2, List.range_succ]
      · constructor <;>
          simp [flushAttempts, h0, h1, h2, List.range_succ]

/-- Claim C4: flush makes at most 3 transport attempts, and before each retry
it sleeps base_delay * 2 ^ attempt seconds with base_delay = 0.5 s (500 ms
here), so the delays slept are always the schedule 500 * 2 ^ i ms for i
below attempts - 1; in particular the response sequence 503, 503, 200 yields
exactly the two delays 0.5 s and 1.0 s (500 ms, 1000 ms) and a successful
return, and a 401 response yields zero delays and an immediate
SurfaAuthError with no retry (one attempt). -/
theorem claim_C4_retry_backoff :
    (∀ st tr, (flush st tr).attempts ≤ 3) ∧
    (∀ st tr, (flush st tr).delays =
      (List.range ((flush st tr).attempts - 1)).map
        (fun i => baseDelayMs * 2 ^ i)) ∧
    baseDelayMs = 500 ∧
    (flush cst tr503).delays = [500, 1000] ∧
    (flush cst tr503).attempts = 3 ∧
    (flush cst tr503).outcome = .ok (some []) ∧
    (flush cst tr401).delays = [] ∧
    (flush cst tr401).attempts = 1 ∧
    (flush cst tr401).outcome =
      .error (.authError "Authentication failed: 401") := by
  refine ⟨?_, ?_, by norm_num [baseDelayMs], ?_, ?_, ?_, ?_, ?_, ?_⟩
  · intro st tr
    by_cases hb : st.buffer.isEmpty
    · simp [flush, hb]
    · have h := (flushAttempts_run tr).1
      cases ho : (flushAttempts tr 0 3 [] none).outcome with
      | ok data => simpa [flush, hb, ho] using h
      | error e => simpa [flush, hb, ho] using h
  · intro st tr
    by_cases hb : st.buffer.isEmpty
    · simp [flush, hb]
    · have h := (flushAttempts_run tr).2
      cases ho : (flushAttempts tr 0 3 [] none).outcome with
      | ok data => simpa [flush, hb, ho] using h
      | error e => simpa [flush, hb, ho] using h
  · decide
  · decide
  · decide
  · decide
  · decide
  · decide

/-- Claim C3: execution_id is write-once. For every flush: when it is already
present it is returned unchanged whatever the server responds; when it is
absent it becomes exactly the execution_id field of a successful response
that contains one (null stored as absent, as the Python attribute), and
stays absent otherwise. Hence it transitions from absent to present at most
once and is never overwritten afterwards. -/
theorem claim_C3_execution_id_write_once (st : ClientState)
    (tr : Nat → TransportResult) :
    (flush st tr).state.execution_id =
      match st.execution_id with
      | some v => some v
      | none =>
          match (flush st tr).outcome with
          | .ok (some data) =>
              if dcontains data "execution_id"
              then pyOpt ((dget data "execution_id").getD .vnone)
              else none
          | _ => none := by
  by_cases hb : st.buffer.isEmpty
  · cases hx : st.execution_id <;> simp [flush, hb, hx]
  · cases ho : (flushAttempts tr 0 3 [] none).outcome with
    | ok data =>
        cases hx : st.execution_id with
        | none =>
            by_cases hc : dcontains data "execution_id" <;>
              simp [flush, hb, ho, hx, hc]
        | some v => simp [flush, hb, ho, hx]
    | error e => cases hx : st.execution_id <;> simp [flush, hb, ho, hx]

/-- Claim C1: flush is atomic. With a non-empty buffer, a flush that raises
an error leaves the entire client state untouched (fully retriable from the
same buffer), and a flush that returns successfully returns the parsed
response body, clears the buffer, possibly sets execution_id (only when it
was absent), possibly sets runtime_info_emitted to true, and changes no
other session state. -/
theorem claim_C1_flush_atomic (st : ClientState) (tr : Nat → TransportResult)
    (hb : st.buffer ≠ []) :
    (∀ e, (flush st tr).outcome = .error e → (flush st tr).state = st) ∧
    (∀ res, (flush st tr).outcome = .ok res →
      ∃ data, res = some data ∧
        (flush st tr).state.buffer = [] ∧
        ((flush st tr).state.execution_id = st.execution_id ∨
          st.execution_id = none) ∧
        ((flush st tr).state.runtime_info_emitted = st.runtime_info_emitted ∨
          (flush st tr).state.runtime_info_emitted = true) ∧
        (flush st tr).state.session_id = st.session_id ∧
        (flush st tr).state.flush_at = st.flush_at ∧
        (flush st tr).state.runtime = st.runtime ∧
        (flush st tr).state.session_ended = st.session_ended) := by
  have hb' : st.buffer.isEmpty = false := by
    simpa [List.isEmpty_iff] using hb
  cases ho : (flushAttempts tr 0 3 [] none).outcome with
  | ok data =>
      constructor
      · intro e he
        simp [flush, hb', ho] at he
      · intro res hres
        refine ⟨data, ?_, ?_, ?_, ?_, ?_, ?_, ?_, ?_⟩
        · simpa [flush, hb', ho] using hres.symm
        · simp [flush, hb', ho]
        · by_cases hx : st.execution_id.isNone
          · right
            simpa [Option.isNone_iff_eq_none] using hx
          · left
            simp [flush, hb', ho, hx]
        · by_cases hi : rtTruthy st.runtime && !st.runtime_info_emitted
          · right
            simp [flush, hb', ho, hi]
          · left
            simp [flush, hb', ho, hi]
        · simp [flush, hb', ho]
        · simp [flush, hb', ho]
        · simp [flush, hb', ho]
        · simp [flush, hb', ho]
  | error e0 =>
      constructor
      · intro e _
        simp [flush, hb', ho]
      · intro res hres
        simp [flush, hb', ho] at hres

theorem claim_C1_flush_atomic_witness :
    cst.buffer ≠ [] ∧ (flush cst tr401).state = cst :=
  ⟨by decide,
    (claim_C1_flush_atomic cst tr401 (by decide)).1
      (.authError "Authentication failed: 401") (by decide)⟩

/-- A client state with auto-flush threshold 2 and one buffered event. -/
def cst2 : ClientState :=
  ⟨"sess-2", 2, none, [sampleEvent], none, false, false⟩

/-- Claim C6: track_raw auto-flushes exactly when the appended event makes
the buffer length reach the flush_at threshold: for every valid event, a
tracking call whose append brings the buffer length to at least flush_at
invokes flush synchronously before returning, and a tracking call that
leaves the buffer below the threshold invokes no flush and only appends. -/
theorem claim_C6_autoflush_threshold (st : ClientState) (ev : EDict)
    (tr : Nat → TransportResult) (hv : validate_event ev = .ok true) :
    (st.flush_at ≤ st.buffer.length + 1 →
      (track_raw st ev tr).flushed = true ∧
      (track_raw st ev tr).flushRes =
        some (flush { st with buffer := st.buffer ++ [ev] } tr)) ∧
    (st.buffer.length + 1 < st.flush_at →
      (track_raw st ev tr).flushed = false ∧
      (track_raw st ev tr).flushRes = none ∧
      (track_raw st ev tr).state = { st with buffer := st.buffer ++ [ev] }) := by
  constructor
  · intro h
    constructor <;> simp [track_raw, hv, List.length_append, h]
  · intro h
    have hc : ¬ st.flush_at ≤ st.buffer.length + 1 := by omega
    refine ⟨?_, ?_, ?_⟩ <;> simp [track_raw, hv, List.length_append, hc]

theorem claim_C6_autoflush_threshold_witness :
    validate_event otherEvent = .ok true ∧
    cst2.flush_at ≤ cst2.buffer.length + 1 ∧
    (track_raw cst2 otherEvent tr200).flushed = true ∧
    (track_raw cst2 otherEvent tr200).flushRes =
      some (flush { cst2 with buffer := cst2.buffer ++ [otherEvent] } tr200) :=
  ⟨by decide, by decide,
    ((claim_C6_autoflush_threshold cst2 otherEvent tr200 (by decide)).1
      (by decide)).1,
    ((claim_C6_autoflush_threshold cst2 otherEvent tr200 (by decide)).1
      (by decide)).2⟩

/-- Claim C5 (amended): flush raises SurfaIngestError immediately, with one
attempt and no delay, for a non-retryable 4xx status (not 401/403/429);
statuses in the retryable set 429, 500, 502, 503, 504 are retried through
the full budget of 3 attempts and 2 delays before the last error surfaces;
and any other status (including 5xx codes outside the retryable set, such as
501) raises SurfaIngestError immediately with no retry. The original claim
that every 5xx status is retried is false (see the counterexample). -/
theorem claim_C5_error_classification (st : ClientState)
    (tr : Nat → TransportResult) (hb : st.buffer ≠ []) :
    (∀ s body text, tr 0 = .http s body text → 400 ≤ s → s < 500 →
      s ∉ retrySet → ¬(s = 401 ∨ s = 403) →
      (flush st tr).outcome =
        .error (.ingestError (clientMsg s body) s (pytake text 500)) ∧
      (flush st tr).attempts = 1 ∧ (flush st tr).delays = []) ∧
    ((∀ i, i < 3 → ∃ s body text, tr i = .http s body text ∧ s ∈ retrySet) →
      (∃ s body text, tr 2 = .http s body text ∧
        (flush st tr).outcome =
          .error (.ingestError ("Server error: " ++ toString s) s
            (pytake text 500))) ∧
      (flush st tr).attempts = 3 ∧
      (flush st tr).delays = [baseDelayMs, baseDelayMs * 2]) ∧
    (∀ s body text, tr 0 = .http s body text → ¬(200 ≤ s ∧ s < 300) →
      ¬(s = 401 ∨ s = 403) → ¬(400 ≤ s ∧ s < 500) → s ∉ retrySet →
      (flush st tr).outcome =
        .error (.ingestError ("Server error: " ++ toString s) s
          (pytake text 500)) ∧
      (flush st tr).attempts = 1 ∧ (flush st tr).delays = []) := by
  have hb' : st.buffer.isEmpty = false := by
    simpa [List.isEmpty_iff] using hb
  refine ⟨?_, ?_, ?_⟩
  · intro s body text htr h4 h5 hr ha
    have h0 : classify (tr 0) =
        .fatal (.ingestError (clientMsg s body) s (pytake text 500)) := by
      rw [htr]; exact classify_client s body text h4 h5 hr ha
    have hfa : flushAttempts tr 0 3 [] none =
        ⟨.error (.ingestError (clientMsg s body) s (pytake text 500)),
          1, []⟩ := by
      simp [flushAttempts, h0]
    refine ⟨?_, ?_, ?_⟩ <;> simp [flush, hb', hfa]
  · intro hall
    obtain ⟨s0, b0, t0, htr0, hr0⟩ := hall 0 (by norm_num)
    obtain ⟨s1, b1, t1, htr1, hr1⟩ := hall 1 (by norm_num)
    obtain ⟨s2, b2, t2, htr2, hr2⟩ := hall 2 (by norm_num)
    have h0 : classify (tr 0) = .retryable (.ingestError
        ("Server error: " ++ toString s0) s0 (pytake t0 500)) := by
      rw [htr0]; exact classify_retryable s0 b0 t0 hr0
    have h1 : classify (tr 1) = .retryable (.ingestError
        ("Server error: " ++ toString s1) s1 (pytake t1 500)) := by
      rw [htr1]; exact classify_retryable s1 b1 t1 hr1
    have h2 : classify (tr 2) = .retryable (.ingestError
        ("Server error: " ++ toString s2) s2 (pytake t2 500)) := by
      rw [htr2]; exact classify_retryable s2 b2 t2 hr2
    have hfa : flushAttempts tr 0 3 [] none =
        ⟨.error (.ingestError ("Server error: " ++ toString s2) s2
          (pytake t2 500)), 3, [baseDelayMs * 2 ^ 0, baseDelayMs * 2 ^ 1]⟩ := by
      simp [flushAttempts, h0, h1, h2]
    refine ⟨⟨s2, b2, t2, htr2, ?_⟩, ?_, ?_⟩ <;> simp [flush, hb', hfa]
  · intro s body text htr h2xx ha h4 hr
    have h0 : classify (tr 0) = .fatal (.ingestError
        ("Server error: " ++ toString s) s (pytake text 500)) := by
      rw [htr]; exact classify_other s body text h2xx ha h4 hr
    have hfa : flushAttempts tr 0 3 [] none =
        ⟨.error (.ingestError ("Server error: " ++ toString s) s
          (pytake text 500)), 1, []⟩ := by
      simp [flushAttempts, h0]
    refine ⟨?_, ?_, ?_⟩ <;> simp [flush, hb', hfa]

theorem claim_C5_error_classification_witness :
    cst.buffer ≠ [] ∧
    (flush cst tr400).outcome =
      .error (.ingestError
        (clientMsg 400 (some [("error", Value.str "bad request")])) 400
        (pytake "req body" 500)) ∧
    (flush cst tr400).attempts = 1 ∧ (flush cst tr400).delays = [] :=
  ⟨by decide,
    (claim_C5_error_classification cst tr400 (by decide)).1 400
      (some [("error", Value.str "bad request")]) "req body" rfl
      (by decide) (by decide) (by decide) (by decide)⟩

/-- Claim C5 counterexample: a 501 response is a 5xx status, but it is not in
the retryable set 429, 500, 502, 503, 504, so flush raises SurfaIngestError
immediately on the first attempt with zero delays — contradicting the claim
that every 5xx response is retryable and surfaces an IngestError only after
the retry budget is exhausted. -/
theorem claim_C5_counterexample :
    (flush cst tr501).outcome =
      .error (.ingestError "Server error: 501" 501 "not implemented") ∧
    (flush cst tr501).attempts = 1 ∧
    (flush cst tr501).delays = [] := by
  refine ⟨?_, ?_, ?_⟩ <;> decide

theorem classify_fatal_ingest (x : TransportResult) (m : String) (s : Nat)
    (t : String) (h : classify x = .fatal (.ingestError m s t)) :
    t.length ≤ 500 := by
  cases x with
  | http status body text =>
      unfold classify at h
      dsimp only at h
      split_ifs at h <;>
        simp only [AttemptOut.fatal.injEq, FlushError.authError.injEq,
          FlushError.ingestError.injEq, reduceCtorEq] at h
      · obtain ⟨-, -, ht⟩ := h
        rw [← ht]
        exact pytake_length_le text 500
      · obtain ⟨-, -, ht⟩ := h
        rw [← ht]
        exact pytake_length_le text 500
  | timeout msg => simp [classify] at h
  | requestError msg => simp [classify] at h

theorem classify_retryable_ingest (x : TransportResult) (m : String) (s : Nat)
    (t : String) (h : classify x = .retryable (.ingestError m s t)) :
    t.length ≤ 500 := by
  cases x with
  | http status body text =>
      unfold classify at h
      dsimp only at h
      split_ifs at h
      simp only [AttemptOut.retryable.injEq,
        FlushError.ingestError.injEq, reduceCtorEq] at h
      obtain ⟨-, -, ht⟩ := h
      rw [← ht]
      exact pytake_length_le text 500
  | timeout msg => simp [classify] at h
  | requestError msg => simp [classify] at h

theorem flushAttempts_error_ingest_text (tr : Nat → TransportResult)
    (m : String) (s : Nat) (t : String)
    (h : (flushAttempts tr 0 3 [] none).outcome =
      .error (.ingestError m s t)) : t.length ≤ 500 := by
  rcases h0 : classify (tr 0) with d0 | e0 | e0
  · simp [flushAttempts, h0] at h
  · simp [flushAttempts, h0] at h
    exact classify_fatal_ingest (tr 0) m s t (by rw [h0, h])
  · rcases h1 : classify (tr 1) with d1 | e1 | e1
    · simp [flushAttempts, h0, h1] at h
    · simp [flushAttempts, h0, h1] at h
      exact classify_fatal_ingest (tr 1) m s t (by rw [h1, h])
    · rcases h2 : classify (tr 2) with d2 | e2 | e2
      · simp [flushAttempts, h0, h1, h2] at h
      · simp [flushAttempts, h0, h1, h2] at h
        exact classify_fatal_ingest (tr 2) m s t (by rw [h2, h])
      · simp [flushAttempts, h0, h1, h2] at h
        exact classify_retryable_ingest (tr 2) m s t (by rw [h2, h])

/-- Claim C7 (amended): the response body attached to every SurfaIngestError
raised by flush (the response_text of a non-retryable client error or of an
exhausted-retry server error) is truncated to at most 500 characters; the
structured error field interpolated into the AuthError and client-error
messages, however, is interpolated verbatim and is not truncated (see the
counterexample). -/
theorem claim_C7_ingest_text_truncated (st : ClientState)
    (tr : Nat → TransportResult) (m : String) (s : Nat) (t : String)
    (h : (flush st tr).outcome = .error (.ingestError m s t)) :
    t.length ≤ 500 := by
  by_cases hb : st.buffer.isEmpty
  · simp [flush, hb] at h
  · cases ho : (flushAttempts tr 0 3 [] none).outcome with
    | ok data => simp [flush, hb, ho] at h
    | error e =>
        have he : e = .ingestError m s t := by
          simpa [flush, hb, ho] using h
        exact flushAttempts_error_ingest_text tr m s t (by rw [ho, he])

theorem claim_C7_ingest_text_truncated_witness :
    (flush cst tr501).outcome =
      .error (.ingestError "Server error: 501" 501 "not implemented") ∧
    ("not implemented" : String).length ≤ 500 :=
  ⟨by decide,
    claim_C7_ingest_text_truncated cst tr501 "Server error: 501" 501
      "not implemented" (by decide)⟩

set_option maxRecDepth 20000 in
/-- Claim C7 counterexample: a 401 response whose body carries a structured
error field of 501 characters makes flush raise a SurfaAuthError whose
message embeds the error text verbatim — longer than 500 characters — so the
error text surfaced in the raised error is not truncated to 500 characters
as claimed. -/
theorem claim_C7_counterexample :
    (flush cst trAuthLong).outcome =
      .error (.authError ("Authentication failed: 401 - " ++ longText)) ∧
    500 < longText.length := by
  constructor
  · decide
  · decide

/-- Claim C8 counterexample: with one buffered event, a successful flush
during which one more event is appended concurrently leaves an empty buffer:
buffer.clear() drops the concurrently appended event instead of retaining
it, contradicting the claimed post-flush buffer contents. -/
theorem claim_C8_counterexample :
    (flushConc cst tr200 [otherEvent]).outcome =
      .ok (some [("execution_id", Value.str "exec-1")]) ∧
    (flushConc cst tr200 [otherEvent]).state.buffer = [] ∧
    (flushConc cst tr200 [otherEvent]).state.buffer ≠ [otherEvent] := by
  refine ⟨?_, ?_, ?_⟩ <;> decide

/-- Claim C8 (amended): a successful flush empties the live buffer entirely:
the flushed snapshot is excluded, but events appended concurrently during
the network I/O are also discarded by buffer.clear() rather than retained;
a failed flush leaves the original events followed by the concurrent
arrivals. Only in the absence of concurrent appends (arrivals empty, where
flushConc coincides with flush) does the post-flush buffer exclude exactly
the flushed events. -/
theorem claim_C8_flush_clears_arrivals (st : ClientState)
    (tr : Nat → TransportResult) (arrivals : List EDict)
    (hb : st.buffer ≠ []) :
    (∀ res, (flushConc st tr arrivals).outcome = .ok res →
      (flushConc st tr arrivals).state.buffer = []) ∧
    (∀ e, (flushConc st tr arrivals).outcome = .error e →
      (flushConc st tr arrivals).state.buffer = st.buffer ++ arrivals) ∧
    flushConc st tr [] = flush st tr := by
  have hb' : st.buffer.isEmpty = false := by
    simpa [List.isEmpty_iff] using hb
  refine ⟨?_, ?_, ?_⟩
  · intro res hres
    cases ho : (flushAttempts tr 0 3 [] none).outcome with
    | ok d => simp [flushConc, hb', ho]
    | error e => simp [flushConc, hb', ho] at hres
  · intro e he
    cases ho : (flushAttempts tr 0 3 [] none).outcome with
    | ok d => simp [flushConc, hb', ho] at he
    | error e2 => simp [flushConc, hb', ho]
  · cases ho : (flushAttempts tr 0 3 [] none).outcome with
    | ok d => simp [flushConc, flush, hb', ho]
    | error e2 => simp [flushConc, flush, hb', ho]

theorem claim_C8_flush_clears_arrivals_witness :
    cst.buffer ≠ [] ∧ (flushConc cst tr200 [sampleEvent]).state.buffer = [] :=
  ⟨by decide,
    (claim_C8_flush_clears_arrivals cst tr200 [sampleEvent] (by decide)).1
      (some [("execution_id", Value.str "exec-1")]) (by decide)⟩

/-- Claim C2: after set_runtime, the next flush with a non-empty buffer sends
a request whose event list is the synthetic runtime-info event followed by
exactly the buffered events; the synthetic event has kind runtime and
subtype runtime_info and carries the runtime snapshot flattened into it
(provided the snapshot itself binds neither kind nor subtype, which its
spread would override), and it is the only runtime-info event of the batch
when the buffer holds none. After that flush succeeds, runtime_info_emitted
is true while the runtime is unchanged, and every later flush with the same
runtime sends its buffer with no runtime-info event injected. -/
theorem claim_C2_runtime_info_once (st0 : ClientState)
    (provider model : String) (mode : Option String) (extra : Option EDict)
    (kwargs : EDict) (tr tr2 : Nat → TransportResult)
    (hb : st0.buffer ≠ [])
    (hk : dget (runtimeOf provider model mode extra kwargs) "kind" = none)
    (hs : dget (runtimeOf provider model mode extra kwargs) "subtype" = none)
    (hbuf : ∀ ev ∈ st0.buffer,
      dget ev "subtype" ≠ some (Value.str "runtime_info")) :
    (flush (set_runtime st0 provider model mode extra kwargs) tr).payload =
      some ⟨st0.session_id,
        mkRuntimeInfoEvent (runtimeOf provider model mode extra kwargs) ::
          st0.buffer,
        st0.execution_id,
        some (runtimeOf provider model mode extra kwargs)⟩ ∧
    dget (mkRuntimeInfoEvent (runtimeOf provider model mode extra kwargs))
      "kind" = some (Value.str "runtime") ∧
    dget (mkRuntimeInfoEvent (runtimeOf provider model mode extra kwargs))
      "subtype" = some (Value.str "runtime_info") ∧
    (mkRuntimeInfoEvent (runtimeOf provider model mode extra kwargs) ::
        st0.buffer).countP
      (fun ev => decide (dget ev "subtype" = some (Value.str "runtime_info")))
      = 1 ∧
    (∀ data,
      (flush (set_runtime st0 provider model mode extra kwargs) tr).outcome =
        .ok (some data) →
      (flush (set_runtime st0 provider model mode extra kwargs)
          tr).state.runtime_info_emitted = true ∧
      (flush (set_runtime st0 provider model mode extra kwargs)
          tr).state.runtime =
        some (runtimeOf provider model mode extra kwargs) ∧
      ∀ b2, b2 ≠ [] →
        (flush { (flush (set_runtime st0 provider model mode extra kwargs)
              tr).state with buffer := b2 } tr2).payload =
          some ⟨st0.session_id, b2,
            (flush (set_runtime st0 provider model mode extra kwargs)
              tr).state.execution_id,
            some (runtimeOf provider model mode extra kwargs)⟩) := by
  have hrtne : runtimeOf provider model mode extra kwargs ≠ [] :=
    runtimeOf_ne_nil provider model mode extra kwargs
  have hrte : (runtimeOf provider model mode extra kwargs).isEmpty = false := by
    simpa [List.isEmpty_iff] using hrtne
  have hb' : st0.buffer.isEmpty = false := by
    simpa [List.isEmpty_iff] using hb
  have hkind : dget (mkRuntimeInfoEvent
      (runtimeOf provider model mode extra kwargs)) "kind"
      = some (Value.str "runtime") := by
    unfold mkRuntimeInfoEvent
    rw [dget_dupdate_of_not_mem _ _ _ hk]
    rfl
  have hsub : dget (mkRuntimeInfoEvent
      (runtimeOf provider model mode extra kwargs)) "subtype"
      = some (Value.str "runtime_info") := by
    unfold mkRuntimeInfoEvent
    rw [dget_dupdate_of_not_mem _ _ _ hs]
    rfl
  refine ⟨?_, hkind, hsub, ?_, ?_⟩
  · cases ho : (flushAttempts tr 0 3 [] none).outcome with
    | ok d => simp [flush, set_runtime, hb', ho, rtTruthy, hrte]
    | error e => simp [flush, set_runtime, hb', ho, rtTruthy, hrte]
  · rw [List.countP_cons]
    have h0 : st0.buffer.countP
        (fun ev => decide (dget ev "subtype"
          = some (Value.str "runtime_info"))) = 0 := by
      rw [List.countP_eq_zero]
      intro ev hev
      simpa using hbuf ev hev
    simp [h0, hsub]
  · intro data hok
    cases ho : (flushAttempts tr 0 3 [] none).outcome with
    | error e =>
        exfalso
        rw [show (flush (set_runtime st0 provider model mode extra kwargs)
            tr).outcome = .error e by
          simp [flush, set_runtime, hb', ho]] at hok
        exact Except.noConfusion hok
    | ok d =>
        refine ⟨?_, ?_, ?_⟩
        · simp [flush, set_runtime, hb', ho, rtTruthy, hrte]
        · simp [flush, set_runtime, hb', ho, rtTruthy, hrte]
        · intro b2 hb2
          have hb2' : b2.isEmpty = false := by
            simpa [List.isEmpty_iff] using hb2
          cases ho2 : (flushAttempts tr2 0 3 [] none).outcome with
          | ok d2 =>
              simp [flush, set_runtime, hb', hb2', ho, ho2, rtTruthy, hrte]
          | error e2 =>
              simp [flush, set_runtime, hb', hb2', ho, ho2, rtTruthy, hrte]

theorem claim_C2_runtime_info_once_witness :
    cst.buffer ≠ [] ∧
    dget (runtimeOf "anthropic" "claude-x" none none []) "kind" = none ∧
    dget (runtimeOf "anthropic" "claude-x" none none []) "subtype" = none ∧
    (flush (set_runtime cst "anthropic" "claude-x" none none []) tr200).payload
      = some ⟨cst.session_id,
          mkRuntimeInfoEvent (runtimeOf "anthropic" "claude-x" none none []) ::
            cst.buffer,
          cst.execution_id,
          some (runtimeOf "anthropic" "claude-x" none none [])⟩ :=
  ⟨by decide, by decide, by decide,
    (claim_C2_runtime_info_once cst "anthropic" "claude-x" none none []
      tr200 tr200 (by decide) (by decide) (by decide) (by decide)).1⟩

end SurfaIngest
